import Mathlib

/-!
Shallow embedding of `src/lambda.py`, a Slack ⇄ S3 AWS Lambda bridge.

The Python code is straight-line glue around third-party SDK calls
(`requests`, `boto3`, `json.loads`, `parse_qs`).  Pure computations of the
source (base64 decoding, UTF-8 decoding, `urllib.parse.quote_plus`,
`str.strip`, dictionary and list access, message formatting) are embedded as
executable Lean functions.  Each external SDK call is modelled by an oracle
field of an `Env` structure giving the call's outcome, and every handler
returns, next to its HTTP response, the trace of external calls it made, so
that "exactly one put_object call", "no side effects" and similar properties
are statements about the trace.
-/

namespace SlackS3

/-- Python values as they occur in the parsed request body and in parsed
JSON API responses: `None`, booleans, strings, lists and string-keyed
dictionaries (the only shapes the source ever touches). -/
inductive PyVal where
  | none
  | bool (b : Bool)
  | str (s : String)
  | list (xs : List PyVal)
  | dict (kvs : List (String × PyVal))

/-- `d.get(k)`: value of the first binding of `k`, else Python `None`. -/
def dictGet (kvs : List (String × PyVal)) (k : String) : PyVal :=
  match kvs.lookup k with
  | some v => v
  | Option.none => PyVal.none

/-- `d.get(k, default)`. -/
def dictGetD (kvs : List (String × PyVal)) (k : String) (d : PyVal) : PyVal :=
  (kvs.lookup k).getD d

/-- `d[k]`: `Option.none` models the `KeyError` case. -/
def dictGetItem (kvs : List (String × PyVal)) (k : String) : Option PyVal :=
  kvs.lookup k

/-- `k in d`. -/
def hasKey (kvs : List (String × PyVal)) (k : String) : Bool :=
  (kvs.lookup k).isSome

/-- `v[k]` on an arbitrary value: `Option.none` models the exception raised
when `v` is not a dictionary or lacks the key. -/
def pyGetItem (v : PyVal) (k : String) : Option PyVal :=
  match v with
  | PyVal.dict kvs => kvs.lookup k
  | _ => Option.none

/-- `v[0]`: first character of a string (as a 1-character string), head of a
list; `Option.none` models `IndexError`/`TypeError`. -/
def pyIndex0 (v : PyVal) : Option PyVal :=
  match v with
  | PyVal.str s =>
    match s.data with
    | c :: _ => some (PyVal.str (String.mk [c]))
    | [] => Option.none
  | PyVal.list (x :: _) => some x
  | _ => Option.none

/-- Characters stripped by Python `str.strip()`: the code points for which
CPython `str.isspace()` holds, namely 0x09-0x0D, 0x1C-0x1F, 0x20, 0x85,
0xA0, 0x1680, 0x2000-0x200A, 0x2028, 0x2029, 0x202F, 0x205F and 0x3000
(the full set enumerated from CPython 3.11). -/
def pyIsSpace (c : Char) : Bool :=
  let n := c.toNat
  (9 ≤ n && n ≤ 13) || (28 ≤ n && n ≤ 32) || n == 133 || n == 160 ||
    n == 5760 || (8192 ≤ n && n ≤ 8202) || n == 8232 || n == 8233 ||
    n == 8239 || n == 8287 || n == 12288

/-- `s.strip()` on a string value; `Option.none` models the
`AttributeError` raised when the value is not a string. -/
def pyStripStr (v : PyVal) : Option String :=
  match v with
  | PyVal.str s =>
    some (String.mk (((s.data.dropWhile pyIsSpace).reverse.dropWhile pyIsSpace).reverse))
  | _ => Option.none

/-- Python truthiness of the values the source tests with `if not _`. -/
def pyTruthy : PyVal → Bool
  | PyVal.none => false
  | PyVal.bool b => b
  | PyVal.str s => !s.isEmpty
  | PyVal.list xs => !xs.isEmpty
  | PyVal.dict kvs => !kvs.isEmpty

/-- `v == "lit"` for a string literal `lit`: true exactly when `v` is an
equal string (no other value compares equal to a `str` in the source). -/
def pyEqStr (v : PyVal) (s : String) : Bool :=
  match v with
  | PyVal.str t => t == s
  | _ => false

/-- Python `str(v)` as used inside f-strings.  Only `None`, booleans and
strings ever reach an f-string in the source; the container cases are
abbreviated and no handler logic inspects them. -/
def pyToStr : PyVal → String
  | PyVal.none => "None"
  | PyVal.bool true => "True"
  | PyVal.bool false => "False"
  | PyVal.str s => s
  | PyVal.list _ => "[...]"
  | PyVal.dict _ => "\x7b...\x7d"

/-! ### `base64.b64decode` followed by `bytes.decode("utf-8")` -/

/-- Value of a base64 alphabet character, `Option.none` for padding or
foreign characters. -/
def b64Val (c : Char) : Option Nat :=
  if 'A' ≤ c ∧ c ≤ 'Z' then some (c.toNat - 65)
  else if 'a' ≤ c ∧ c ≤ 'z' then some (c.toNat - 97 + 26)
  else if '0' ≤ c ∧ c ≤ '9' then some (c.toNat - 48 + 52)
  else if c = '+' then some 62
  else if c = '/' then some 63
  else Option.none

/-- The lenient base64 state machine of CPython `binascii.a2b_base64`
(`strict_mode=False`), as `base64.b64decode` invokes it.  State: position
inside the current four-character quantum (`quad`), the bits carried over
from the previous character (`left`), and the number of padding characters
seen in this quantum (`pads`).  A `=` before position two of a quantum is
ignored; a `=` that completes a quantum ends decoding, discarding the rest
of the input; other foreign characters are discarded; data characters
reset the padding count; input ending mid-quantum is `binascii.Error`
(`Option.none`).  This machine was validated against CPython 3.11 on
exhaustive small inputs and 200k random strings. -/
def b64Lenient : List Char → Nat → Nat → Nat → Option (List Nat)
  | [], quad, _, _ => if quad = 0 then some [] else Option.none
  | c :: rest, quad, left, pads =>
    if c = '=' then
      if 2 ≤ quad then
        if 4 ≤ quad + (pads + 1) then some []
        else b64Lenient rest quad left (pads + 1)
      else b64Lenient rest quad left pads
    else
      match b64Val c with
      | Option.none => b64Lenient rest quad left pads
      | some v =>
        match quad with
        | 0 => b64Lenient rest 1 v 0
        | 1 => (b64Lenient rest 2 (v % 16) 0).map (fun tl => (left * 4 + v / 16) :: tl)
        | 2 => (b64Lenient rest 3 (v % 4) 0).map (fun tl => (left * 16 + v / 4) :: tl)
        | _ => (b64Lenient rest 0 0 0).map (fun tl => (left * 64 + v) :: tl)

/-- `base64.b64decode` on a `str` argument: a non-ASCII character raises
`ValueError` before any decoding (`s.encode("ascii")`), otherwise the
lenient `a2b_base64` machine runs. -/
def b64decode (s : String) : Option (List Nat) :=
  if s.data.all (fun c => c.toNat < 128) then b64Lenient s.data 0 0 0
  else Option.none

/-- Is `b` a UTF-8 continuation byte? -/
def isContByte (b : Nat) : Bool :=
  128 ≤ b && b < 192

/-- Strict UTF-8 decoding of a byte list (CPython `bytes.decode("utf-8")`):
rejects stray continuation bytes, overlong forms, surrogates and
out-of-range code points.  The `Nat` fuel is the byte count. -/
def utf8DecodeAux : Nat → List Nat → Option (List Char)
  | _, [] => some []
  | 0, _ :: _ => Option.none
  | fuel + 1, b :: rest =>
    if b < 128 then
      (utf8DecodeAux fuel rest).map (fun cs => Char.ofNat b :: cs)
    else if b < 194 then
      Option.none
    else if b < 224 then
      match rest with
      | b2 :: rest2 =>
        if isContByte b2 then
          (utf8DecodeAux fuel rest2).map (fun cs => Char.ofNat ((b - 192) * 64 + (b2 - 128)) :: cs)
        else Option.none
      | [] => Option.none
    else if b < 240 then
      match rest with
      | b2 :: b3 :: rest3 =>
        if isContByte b2 && isContByte b3 then
          let n := (b - 224) * 4096 + (b2 - 128) * 64 + (b3 - 128)
          if 2048 ≤ n ∧ (n < 55296 ∨ 57344 ≤ n) then
            (utf8DecodeAux fuel rest3).map (fun cs => Char.ofNat n :: cs)
          else Option.none
        else Option.none
      | _ => Option.none
    else if b < 245 then
      match rest with
      | b2 :: b3 :: b4 :: rest4 =>
        if isContByte b2 && isContByte b3 && isContByte b4 then
          let n := (b - 240) * 262144 + (b2 - 128) * 4096 + (b3 - 128) * 64 + (b4 - 128)
          if 65536 ≤ n ∧ n < 1114112 then
            (utf8DecodeAux fuel rest4).map (fun cs => Char.ofNat n :: cs)
          else Option.none
        else Option.none
      | _ => Option.none
    else Option.none

/-- `bytes.decode("utf-8")`. -/
def utf8Decode (bs : List Nat) : Option String :=
  (utf8DecodeAux bs.length bs).map String.mk

/-- `base64.b64decode(raw_body).decode("utf-8")`; `Option.none` models the
exception caught at `src/lambda.py:35`. -/
def decodeBody (s : String) : Option String :=
  (b64decode s).bind utf8Decode

/-! ### `urllib.parse.quote_plus` -/

/-- UTF-8 encoding of one code point. -/
def utf8EncodeNat (n : Nat) : List Nat :=
  if n < 128 then [n]
  else if n < 2048 then [192 + n / 64, 128 + n % 64]
  else if n < 65536 then [224 + n / 4096, 128 + (n / 64) % 64, 128 + n % 64]
  else [240 + n / 262144, 128 + (n / 4096) % 64, 128 + (n / 64) % 64, 128 + n % 64]

/-- UTF-8 bytes of a string. -/
def utf8Bytes (s : String) : List Nat :=
  s.data.foldr (fun c acc => utf8EncodeNat c.toNat ++ acc) []

/-- Upper-case hexadecimal digit. -/
def hexDigit (n : Nat) : Char :=
  if n < 10 then Char.ofNat (48 + n) else Char.ofNat (55 + n)

/-- Bytes `quote_plus` passes through unescaped: ASCII letters, digits and
`_ . - ~`. -/
def quoteSafeByte (b : Nat) : Bool :=
  (65 ≤ b && b ≤ 90) || (97 ≤ b && b ≤ 122) || (48 ≤ b && b ≤ 57) ||
    b == 95 || b == 46 || b == 45 || b == 126

/-- `quote_plus` treatment of one byte: space becomes `+`, safe bytes pass
through, everything else is percent-encoded. -/
def quotePlusByte (b : Nat) : String :=
  if b == 32 then "+"
  else if quoteSafeByte b then String.mk [Char.ofNat b]
  else String.mk ['%', hexDigit (b / 16), hexDigit (b % 16)]

/-- `urllib.parse.quote_plus`. -/
def quotePlus (s : String) : String :=
  String.join ((utf8Bytes s).map quotePlusByte)

/-! ### Effects, environment and responses -/

/-- One entry of the S3 `list_objects_v2` `Contents` array; the source only
ever reads its `Key` field (`src/lambda.py:145`). -/
structure S3Object where
  key : String

/-- One external call made by a handler, as recorded in the trace, plus
handler-entry markers (`enterFetch`/`enterList`/`enterUpload`) used only to
state that the dispatcher runs at most one handler per request. -/
inductive Eff where
  | filesInfo (fileId : PyVal)
  | download (url : PyVal)
  | putObject (bucket : Option String) (key : PyVal) (body : List Nat)
  | listObjects (bucket : Option String)
  | presign (bucket : Option String) (key : String) (disposition : String) (expiresIn : Nat)
  | postMessage (channel : PyVal) (text : String)
  | enterFetch
  | enterList
  | enterUpload

/-- The HTTP response dictionary: `statusCode` plus an optional `body`
(`handle_file_upload` returns responses without a body). -/
structure Response where
  statusCode : Nat
  body : Option PyVal

/-- Response with a string body. -/
def strRes (code : Nat) (s : String) : Response :=
  { statusCode := code, body := some (PyVal.str s) }

/-- Outcomes of the third-party SDK calls (requests, boto3, `json.loads`,
`parse_qs`) and the startup configuration.  Failures carry the exception
text that the source interpolates into error messages.

`presign` returns a plain string with no failure case: per the spec,
`generate_presigned_url` is a local signing computation that never contacts
the storage service, and in particular never raises the storage
"no such key" error class. -/
structure Env where
  bucket : Option String
  jsonLoads : String → Option PyVal
  parseQs : String → List (String × List String)
  filesInfo : PyVal → Except String PyVal
  download : PyVal → Except String (List Nat)
  putObject : Option String → PyVal → List Nat → Except String Unit
  listObjects : Option String → Except String (Option (List S3Object))
  presign : Option String → String → String → Nat → String
  postMessage : PyVal → String → Except String Unit

/-! ### The source functions (`src/lambda.py`) -/

/-- `post_slack_message` (`src/lambda.py:170`): one `chat.postMessage` call;
a `RequestException` from the call is caught and logged, never re-raised,
and the function returns nothing. -/
def post_slack_message (env : Env) (channel_id : PyVal) (text : String) : List Eff :=
  match env.postMessage channel_id text with
  | Except.ok _ => [Eff.postMessage channel_id text]
  | Except.error _ => [Eff.postMessage channel_id text]

/-- `get_file_info` (`src/lambda.py:156`): one `files.info` call; HTTP or
JSON failure, and an `ok: false` payload, raise (modelled as
`Except.error`). -/
def get_file_info (env : Env) (file_id : PyVal) : Except String PyVal × List Eff :=
  (match env.filesInfo file_id with
   | Except.error e => Except.error e
   | Except.ok info =>
     match info with
     | PyVal.dict kvs =>
       if pyTruthy (dictGet kvs "ok") then Except.ok info
       else Except.error ("Slack API error: " ++ pyToStr (dictGet kvs "error"))
     | _ => Except.error "AttributeError: get",
   [Eff.filesInfo file_id])

/-- `handle_file_upload` (`src/lambda.py:65`): metadata fetch, content
download, S3 write, then a success message; any failure is caught at the
handler boundary and reported as a single error message with status 500.
Failed dictionary accesses carry a `KeyError:`-style text. -/
def handle_file_upload (env : Env) (event_data : List (String × PyVal)) : Response × List Eff :=
  let file_id := dictGet event_data "file_id"
  let channel_id := dictGet event_data "channel_id"
  match get_file_info env file_id with
  | (Except.error e, tr) =>
    ({ statusCode := 500, body := Option.none },
     Eff.enterUpload :: tr ++ post_slack_message env channel_id ("❌ Error: " ++ e))
  | (Except.ok info, tr) =>
    match pyGetItem info "file" with
    | Option.none =>
      ({ statusCode := 500, body := Option.none },
       Eff.enterUpload :: tr ++ post_slack_message env channel_id "❌ Error: KeyError: file")
    | some fileObj =>
      match pyGetItem fileObj "url_private_download" with
      | Option.none =>
        ({ statusCode := 500, body := Option.none },
         Eff.enterUpload :: tr ++
           post_slack_message env channel_id "❌ Error: KeyError: url_private_download")
      | some file_url =>
        match pyGetItem fileObj "name" with
        | Option.none =>
          ({ statusCode := 500, body := Option.none },
           Eff.enterUpload :: tr ++ post_slack_message env channel_id "❌ Error: KeyError: name")
        | some file_name =>
          match env.download file_url with
          | Except.error e =>
            ({ statusCode := 500, body := Option.none },
             Eff.enterUpload :: tr ++ Eff.download file_url ::
               post_slack_message env channel_id ("❌ Error: " ++ e))
          | Except.ok content =>
            match env.putObject env.bucket file_name content with
            | Except.error e =>
              ({ statusCode := 500, body := Option.none },
               Eff.enterUpload :: tr ++ Eff.download file_url ::
                 Eff.putObject env.bucket file_name content ::
                 post_slack_message env channel_id ("❌ Error: " ++ e))
            | Except.ok _ =>
              ({ statusCode := 200, body := Option.none },
               Eff.enterUpload :: tr ++ Eff.download file_url ::
                 Eff.putObject env.bucket file_name content ::
                 post_slack_message env channel_id
                   ("✅ File `" ++ pyToStr file_name ++ "` uploaded to S3."))

/-- Exceptions distinguished by `handle_s3_fetch`: the boto3 `ClientError`
class (carrying its error code and the `file_name` in scope at the raise
site) versus everything else. -/
inductive FetchExn where
  | clientError (code : String) (fileName : String)
  | other (msg : String)

/-- The `try` block of `handle_s3_fetch` (`src/lambda.py:100`): read and
strip `text[0]`, read `channel_id[0]`, return the usage hint on an empty
name, else one presigned-URL generation and one chat post. -/
def fetchTry (env : Env) (body : List (String × PyVal)) : Except FetchExn Response × List Eff :=
  match dictGetItem body "text" with
  | Option.none => (Except.error (FetchExn.other "KeyError: text"), [])
  | some t =>
    match pyIndex0 t with
    | Option.none => (Except.error (FetchExn.other "IndexError"), [])
    | some t0 =>
      match pyStripStr t0 with
      | Option.none => (Except.error (FetchExn.other "AttributeError: strip"), [])
      | some file_name =>
        match dictGetItem body "channel_id" with
        | Option.none => (Except.error (FetchExn.other "KeyError: channel_id"), [])
        | some chv =>
          match pyIndex0 chv with
          | Option.none => (Except.error (FetchExn.other "IndexError"), [])
          | some channel_id =>
            if file_name.isEmpty then
              (Except.ok (strRes 200 "Please provide a filename. Usage: `/s3-fetch <filename>`"),
               [])
            else
              let disposition := "attachment; filename=\"" ++ quotePlus file_name ++ "\""
              let presigned_url := env.presign env.bucket file_name disposition 3600
              let message := "🔗 Here is your download link for `" ++ file_name ++
                "` (valid for 1 hour):\n" ++ presigned_url
              (Except.ok (strRes 200 ("Fetching `" ++ file_name ++ "`...")),
               Eff.presign env.bucket file_name disposition 3600 ::
                 post_slack_message env channel_id message)

/-- `handle_s3_fetch` (`src/lambda.py:96`): the `try` block plus its two
`except` clauses, including the `NoSuchKey` branch of the `ClientError`
handler (`src/lambda.py:121`). -/
def handle_s3_fetch (env : Env) (body : List (String × PyVal)) : Response × List Eff :=
  match fetchTry env body with
  | (Except.ok r, tr) => (r, Eff.enterFetch :: tr)
  | (Except.error (FetchExn.clientError code file_name), tr) =>
    if code == "NoSuchKey" then
      (strRes 200 ("❌ File `" ++ file_name ++ "` not found in S3."), Eff.enterFetch :: tr)
    else
      (strRes 200 "❌ Error fetching the file.", Eff.enterFetch :: tr)
  | (Except.error (FetchExn.other _), tr) =>
    (strRes 500 "Internal server error.", Eff.enterFetch :: tr)

/-- `handle_s3_list` (`src/lambda.py:132`): read `channel_id[0]`, one
`list_objects_v2` call; a missing `Contents` key posts the bucket-empty
message, otherwise the keys are posted as a `- `-bulleted, newline-joined
list; any exception yields status 500. -/
def handle_s3_list (env : Env) (body : List (String × PyVal)) : Response × List Eff :=
  match dictGetItem body "channel_id" with
  | Option.none => (strRes 500 "Error listing files.", [Eff.enterList])
  | some chv =>
    match pyIndex0 chv with
    | Option.none => (strRes 500 "Error listing files.", [Eff.enterList])
    | some channel_id =>
      match env.listObjects env.bucket with
      | Except.error _ =>
        (strRes 500 "Error listing files.", [Eff.enterList, Eff.listObjects env.bucket])
      | Except.ok Option.none =>
        (strRes 200 "No files found.",
         Eff.enterList :: Eff.listObjects env.bucket ::
           post_slack_message env channel_id "📂 The S3 bucket is empty.")
      | Except.ok (some contents) =>
        let files := contents.map S3Object.key
        let file_list_text := String.intercalate "\n" (files.map (fun f => "- " ++ f))
        (strRes 200 "Files listed.",
         Eff.enterList :: Eff.listObjects env.bucket ::
           post_slack_message env channel_id ("📂 **Files in S3:**\n" ++ file_list_text))

/-- The default acknowledgement `json.dumps(\x7b"message": "Event received."\x7d)`
returned when no branch matches (`src/lambda.py:62`). -/
def defaultAck : Response :=
  strRes 200 "\x7b\"message\": \"Event received.\"\x7d"

/-- The event-branch tail of `lambda_handler` (`src/lambda.py:57`):
`body.get("event", \x7b\x7d)`, the `file_shared` check, else the default
acknowledgement.  A non-dictionary `event` value makes `event_data.get`
raise `AttributeError`, propagated as `Except.error`. -/
def dispatchEvent (env : Env) (kvs : List (String × PyVal)) : Except String Response × List Eff :=
  match dictGetD kvs "event" (PyVal.dict []) with
  | PyVal.dict evKvs =>
    if pyEqStr (dictGet evKvs "type") "file_shared" then
      match handle_file_upload env evKvs with
      | (r, tr) => (Except.ok r, tr)
    else
      (Except.ok defaultAck, [])
  | _ => (Except.error "AttributeError: get", [])

/-- The dispatch of `lambda_handler` on the parsed body
(`src/lambda.py:46-62`): challenge verification, then the command branch
(`body.get("command")[0]`), then the event branch.  Uncaught exceptions —
`KeyError` on a missing `challenge`, indexing failures on the `command`
value, `body.get` on a non-dictionary body — surface as `Except.error`,
since `lambda_handler` has no surrounding `try`. -/
def dispatch (env : Env) (body : PyVal) : Except String Response × List Eff :=
  match body with
  | PyVal.dict kvs =>
    if pyEqStr (dictGet kvs "type") "url_verification" then
      match dictGetItem kvs "challenge" with
      | some c => (Except.ok { statusCode := 200, body := some c }, [])
      | Option.none => (Except.error "KeyError: challenge", [])
    else if hasKey kvs "command" then
      match pyIndex0 (dictGet kvs "command") with
      | Option.none => (Except.error "TypeError: not subscriptable", [])
      | some command =>
        if pyEqStr command "/s3-fetch" then
          match handle_s3_fetch env kvs with
          | (r, tr) => (Except.ok r, tr)
        else if pyEqStr command "/s3-list" then
          match handle_s3_list env kvs with
          | (r, tr) => (Except.ok r, tr)
        else
          dispatchEvent env kvs
    else
      dispatchEvent env kvs
  | _ => (Except.error "AttributeError: get", [])

/-- The inbound Lambda event: raw body string and the transport
base64 flag. -/
structure LambdaEvent where
  body : String
  isBase64Encoded : Bool

/-- Body parsing (`src/lambda.py:40-43`): `json.loads`, falling back to
`parse_qs` (whose values are lists of strings) on a parse failure. -/
def parseAndDispatch (env : Env) (raw : String) : Except String Response × List Eff :=
  match env.jsonLoads raw with
  | some b => dispatch env b
  | Option.none =>
    dispatch env (PyVal.dict ((env.parseQs raw).map
      (fun p => (p.fst, PyVal.list (p.snd.map PyVal.str)))))

/-- `lambda_handler` (`src/lambda.py:23`): optional base64+UTF-8 decode of
the body (failure returns 400 before anything else runs), then parse and
dispatch. -/
def lambda_handler (env : Env) (event : LambdaEvent) : Except String Response × List Eff :=
  if event.isBase64Encoded then
    match decodeBody event.body with
    | Option.none => (Except.ok (strRes 400 "Bad request body."), [])
    | some raw => parseAndDispatch env raw
  else
    parseAndDispatch env event.body

/-! ### Trace observations -/

/-- Is this trace entry a `chat.postMessage` call? -/
def isPostMsg : Eff → Bool
  | Eff.postMessage _ _ => true
  | _ => false

/-- Is this trace entry a handler-entry marker? -/
def isEnter : Eff → Bool
  | Eff.enterFetch => true
  | Eff.enterList => true
  | Eff.enterUpload => true
  | _ => false

/-- Is this trace entry a storage-client (boto3) call? -/
def isStorageEff : Eff → Bool
  | Eff.putObject _ _ _ => true
  | Eff.listObjects _ => true
  | Eff.presign _ _ _ _ => true
  | _ => false

/-- Is this trace entry a chat-platform (Slack HTTP) call? -/
def isChatEff : Eff → Bool
  | Eff.postMessage _ _ => true
  | Eff.filesInfo _ => true
  | Eff.download _ => true
  | _ => false

/-- Number of `chat.postMessage` calls in a trace. -/
def countPost (tr : List Eff) : Nat := tr.countP isPostMsg

/-- Number of handler entries in a trace. -/
def countEnter (tr : List Eff) : Nat := tr.countP isEnter

/-- Did the `try` block of `handle_s3_fetch` raise a boto3 `ClientError`? -/
def isClientErrExn : Except FetchExn Response → Bool
  | Except.error (FetchExn.clientError _ _) => true
  | _ => false

/-! ### Concrete environments and requests used in witnesses -/

/-- An environment in which every external call succeeds. -/
def testEnv : Env where
  bucket := some "bkt"
  jsonLoads := fun _ => Option.none
  parseQs := fun _ => []
  filesInfo := fun _ => Except.ok (PyVal.dict
    [("ok", PyVal.bool true),
     ("file", PyVal.dict
       [("url_private_download", PyVal.str "https://files.example/p"),
        ("name", PyVal.str "report.csv")])])
  download := fun _ => Except.ok [104, 105]
  putObject := fun _ _ _ => Except.ok ()
  listObjects := fun _ => Except.ok (some [{ key := "a.txt" }, { key := "b.txt" }])
  presign := fun _ _ _ _ => "https://signed.example/u"
  postMessage := fun _ _ => Except.ok ()

/-- Like `testEnv`, but every `chat.postMessage` call fails with a
`RequestException`. -/
def envPostFail : Env :=
  { testEnv with postMessage := fun _ _ => Except.error "ConnectionError" }

/-- Like `testEnv`, but `list_objects_v2` fails. -/
def envListFail : Env :=
  { testEnv with listObjects := fun _ => Except.error "AccessDenied" }

/-- Like `testEnv`, but `files.info` fails. -/
def envInfoFail : Env :=
  { testEnv with filesInfo := fun _ => Except.error "HTTPError 503" }

/-- A form-parsed `/s3-fetch report.csv` body. -/
def fetchBody : List (String × PyVal) :=
  [("text", PyVal.list [PyVal.str " report.csv "]),
   ("channel_id", PyVal.list [PyVal.str "C123"])]

/-- A form-parsed `/s3-fetch` body with whitespace-only text. -/
def fetchBodyBlank : List (String × PyVal) :=
  [("text", PyVal.list [PyVal.str "   "]),
   ("channel_id", PyVal.list [PyVal.str "C123"])]

/-- A form-parsed `/s3-fetch` body whose text is a single no-break space
(U+00A0), the value `parse_qs` yields for `text=%C2%A0`; Python
`str.strip()` reduces it to the empty string. -/
def nbspBody : List (String × PyVal) :=
  [("text", PyVal.list [PyVal.str "\u00A0"]),
   ("channel_id", PyVal.list [PyVal.str "C123"])]

/-- A form-parsed body with just a channel, as `/s3-list` sends. -/
def listBody : List (String × PyVal) :=
  [("channel_id", PyVal.list [PyVal.str "C123"])]

/-- A `file_shared` event payload. -/
def uploadEvd : List (String × PyVal) :=
  [("file_id", PyVal.str "F42"), ("channel_id", PyVal.str "C123")]

/-- A JSON URL-verification envelope. -/
def challengeBody : List (String × PyVal) :=
  [("type", PyVal.str "url_verification"), ("challenge", PyVal.str "abc123")]

/-- A JSON-parsed envelope whose `command` is a plain string, as
`json.loads` delivers it. -/
def jsonCmdBody : List (String × PyVal) :=
  [("command", PyVal.str "/s3-fetch")]

/-- A form-parsed envelope whose `command` is a singleton string list, as
`parse_qs` delivers it. -/
def formCmdBody : List (String × PyVal) :=
  [("command", PyVal.list [PyVal.str "/s3-list"]),
   ("channel_id", PyVal.list [PyVal.str "C123"])]

/-- A form-parsed envelope carrying an unknown command. -/
def otherCmdBody : List (String × PyVal) :=
  [("command", PyVal.list [PyVal.str "/s3-delete"])]

/-- A base64-flagged request whose body is not decodable base64 (a single
data character is one more than a multiple of four; CPython raises
`binascii.Error`). -/
def badB64Event : LambdaEvent :=
  { body := "A", isBase64Encoded := true }

/-- A base64-flagged request whose body carries data after a complete
padding quantum; CPython decodes it leniently to `A`, discarding the
trailing `QUJD`. -/
def padStopB64Event : LambdaEvent :=
  { body := "QQ==QUJD", isBase64Encoded := true }

/-! ### Helper lemmas about traces -/

/-- `post_slack_message` always performs exactly its one call, whatever the
call's outcome (the `RequestException` handler swallows failures). -/
theorem post_slack_message_eq (env : Env) (ch : PyVal) (t : String) :
    post_slack_message env ch t = [Eff.postMessage ch t] := by
  unfold post_slack_message
  split <;> rfl

/-- The `try` block of the fetch handler enters no handler. -/
theorem fetchTry_countEnter (env : Env) (b : List (String × PyVal)) :
    countEnter (fetchTry env b).snd = 0 := by
  unfold fetchTry
  repeat' split
  all_goals simp [countEnter, isEnter, post_slack_message_eq]

/-- The fetch handler bears exactly one entry marker. -/
theorem fetch_countEnter (env : Env) (b : List (String × PyVal)) :
    countEnter (handle_s3_fetch env b).snd = 1 := by
  have h0 := fetchTry_countEnter env b
  unfold handle_s3_fetch
  rcases h : fetchTry env b with ⟨res, tr⟩
  rw [h] at h0
  simp only [countEnter] at h0 ⊢
  rcases res with exn | r
  · rcases exn with ⟨code, fn⟩ | msg
    · by_cases hc : code = "NoSuchKey" <;> simp [hc, List.countP_cons, isEnter, h0]
    · simp [List.countP_cons, isEnter, h0]
  · simp [List.countP_cons, isEnter, h0]

/-- The list handler bears exactly one entry marker. -/
theorem list_countEnter (env : Env) (b : List (String × PyVal)) :
    countEnter (handle_s3_list env b).snd = 1 := by
  unfold handle_s3_list
  repeat' split
  all_goals simp [countEnter, isEnter, post_slack_message_eq, List.countP_cons]

/-- The upload handler bears exactly one entry marker and makes exactly one
`chat.postMessage` call, on every path. -/
theorem upload_trace_counts (env : Env) (evd : List (String × PyVal)) :
    countEnter (handle_file_upload env evd).snd = 1 ∧
      countPost (handle_file_upload env evd).snd = 1 := by
  unfold handle_file_upload get_file_info
  rcases h1 : env.filesInfo (dictGet evd "file_id") with e | info
  · simp [h1, countPost, countEnter, isPostMsg, isEnter, post_slack_message_eq]
  · rcases info with _ | b | s | xs | kvs <;>
      simp only [h1] <;>
      try simp [countPost, countEnter, isPostMsg, isEnter, post_slack_message_eq]
    by_cases h2 : pyTruthy (dictGet kvs "ok")
    · simp only [h2, if_true]
      rcases h3 : pyGetItem (PyVal.dict kvs) "file" with _ | fileObj
      · simp [h3, countPost, countEnter, isPostMsg, isEnter, post_slack_message_eq]
      · simp only [h3]
        rcases h4 : pyGetItem fileObj "url_private_download" with _ | u
        · simp [h4, countPost, countEnter, isPostMsg, isEnter, post_slack_message_eq]
        · simp only [h4]
          rcases h5 : pyGetItem fileObj "name" with _ | nm
          · simp [h5, countPost, countEnter, isPostMsg, isEnter, post_slack_message_eq]
          · simp only [h5]
            rcases h6 : env.download u with e | content
            · simp [h6, countPost, countEnter, isPostMsg, isEnter, post_slack_message_eq]
            · simp only [h6]
              rcases h7 : env.putObject env.bucket nm content with e | _
              · simp [h7, countPost, countEnter, isPostMsg, isEnter, post_slack_message_eq]
              · simp [h7, countPost, countEnter, isPostMsg, isEnter, post_slack_message_eq]
    · simp [h2, countPost, countEnter, isPostMsg, isEnter, post_slack_message_eq]

/-- The event-branch tail of the dispatcher enters at most one handler. -/
theorem dispatchEvent_countEnter (env : Env) (kvs : List (String × PyVal)) :
    countEnter (dispatchEvent env kvs).snd ≤ 1 := by
  unfold dispatchEvent
  rcases h : dictGetD kvs "event" (PyVal.dict []) with _ | bb | s | xs | evKvs <;>
    simp [h, countEnter]
  by_cases ht : pyEqStr (dictGet evKvs "type") "file_shared" = true
  · rcases hu : handle_file_upload env evKvs with ⟨r, tr⟩
    have := (upload_trace_counts env evKvs).1
    rw [hu] at this
    simp only [countEnter] at this ⊢
    simp [ht, hu, this]
  · simp [ht, countEnter]

/-- The dispatcher enters at most one handler. -/
theorem dispatch_countEnter (env : Env) (b : PyVal) :
    countEnter (dispatch env b).snd ≤ 1 := by
  unfold dispatch
  rcases b with _ | bb | s | xs | kvs <;> simp [countEnter]
  by_cases h1 : pyEqStr (dictGet kvs "type") "url_verification" = true
  · rcases h2 : dictGetItem kvs "challenge" with _ | c <;> simp [h1, h2, countEnter]
  · by_cases h2 : hasKey kvs "command" = true
    · rcases h3 : pyIndex0 (dictGet kvs "command") with _ | v
      · simp [h1, h2, h3, countEnter]
      · by_cases h4 : pyEqStr v "/s3-fetch" = true
        · rcases hf : handle_s3_fetch env kvs with ⟨r, tr⟩
          have := fetch_countEnter env kvs
          rw [hf] at this
          simp only [countEnter] at this ⊢
          simp [h1, h2, h3, h4, hf, this]
        · by_cases h5 : pyEqStr v "/s3-list" = true
          · rcases hl : handle_s3_list env kvs with ⟨r, tr⟩
            have := list_countEnter env kvs
            rw [hl] at this
            simp only [countEnter] at this ⊢
            simp [h1, h2, h3, h4, h5, hl, this]
          · have := dispatchEvent_countEnter env kvs
            simp only [countEnter] at this ⊢
            simp [h1, h2, h3, h4, h5, this]
    · have := dispatchEvent_countEnter env kvs
      simp only [countEnter] at this ⊢
      simp [h1, h2, this]

/-- Parsing then dispatching enters at most one handler. -/
theorem parseAndDispatch_countEnter (env : Env) (raw : String) :
    countEnter (parseAndDispatch env raw).snd ≤ 1 := by
  unfold parseAndDispatch
  rcases h : env.jsonLoads raw with _ | b
  · simp only [h]
    apply dispatch_countEnter
  · simp only [h]
    apply dispatch_countEnter

/-- The whole Lambda entry point enters at most one handler. -/
theorem lambda_countEnter (env : Env) (ev : LambdaEvent) :
    countEnter (lambda_handler env ev).snd ≤ 1 := by
  unfold lambda_handler
  by_cases hb : ev.isBase64Encoded = true
  · rcases h : decodeBody ev.body with _ | raw
    · simp [hb, h, countEnter]
    · simp only [hb, h, if_true]
      have := parseAndDispatch_countEnter env raw
      simpa [countEnter] using this
  · simp only [hb]
    simp [Bool.not_eq_true] at hb
    simp [hb]
    have := parseAndDispatch_countEnter env ev.body
    simpa [countEnter] using this

/-! ### The claims -/

/-- Claim C1: when the metadata fetch, the content download and the storage
write all succeed, `handle_file_upload` makes exactly one `put_object` call
whose key is the reported file name and whose body is the downloaded bytes,
then posts exactly one success chat message and returns status 200; a
failure at the metadata, download or write step instead posts exactly one
failure chat message and returns status 500; and no execution posts a chat
message twice (the number of `chat.postMessage` calls in every trace is at
most one). -/
theorem upload_messaging_spec :
    (∀ (env : Env) (evd kvs : List (String × PyVal)) (fileObj u nm : PyVal)
        (content : List Nat),
      env.filesInfo (dictGet evd "file_id") = Except.ok (PyVal.dict kvs) →
      pyTruthy (dictGet kvs "ok") = true →
      pyGetItem (PyVal.dict kvs) "file" = some fileObj →
      pyGetItem fileObj "url_private_download" = some u →
      pyGetItem fileObj "name" = some nm →
      env.download u = Except.ok content →
      env.putObject env.bucket nm content = Except.ok () →
      handle_file_upload env evd =
        ({ statusCode := 200, body := Option.none },
         [Eff.enterUpload, Eff.filesInfo (dictGet evd "file_id"), Eff.download u,
          Eff.putObject env.bucket nm content,
          Eff.postMessage (dictGet evd "channel_id")
            ("✅ File `" ++ pyToStr nm ++ "` uploaded to S3.")])) ∧
    (∀ (env : Env) (evd : List (String × PyVal)) (e : String),
      env.filesInfo (dictGet evd "file_id") = Except.error e →
      handle_file_upload env evd =
        ({ statusCode := 500, body := Option.none },
         [Eff.enterUpload, Eff.filesInfo (dictGet evd "file_id"),
          Eff.postMessage (dictGet evd "channel_id") ("❌ Error: " ++ e)])) ∧
    (∀ (env : Env) (evd kvs : List (String × PyVal)) (fileObj u nm : PyVal) (e : String),
      env.filesInfo (dictGet evd "file_id") = Except.ok (PyVal.dict kvs) →
      pyTruthy (dictGet kvs "ok") = true →
      pyGetItem (PyVal.dict kvs) "file" = some fileObj →
      pyGetItem fileObj "url_private_download" = some u →
      pyGetItem fileObj "name" = some nm →
      env.download u = Except.error e →
      handle_file_upload env evd =
        ({ statusCode := 500, body := Option.none },
         [Eff.enterUpload, Eff.filesInfo (dictGet evd "file_id"), Eff.download u,
          Eff.postMessage (dictGet evd "channel_id") ("❌ Error: " ++ e)])) ∧
    (∀ (env : Env) (evd kvs : List (String × PyVal)) (fileObj u nm : PyVal)
        (content : List Nat) (e : String),
      env.filesInfo (dictGet evd "file_id") = Except.ok (PyVal.dict kvs) →
      pyTruthy (dictGet kvs "ok") = true →
      pyGetItem (PyVal.dict kvs) "file" = some fileObj →
      pyGetItem fileObj "url_private_download" = some u →
      pyGetItem fileObj "name" = some nm →
      env.download u = Except.ok content →
      env.putObject env.bucket nm content = Except.error e →
      handle_file_upload env evd =
        ({ statusCode := 500, body := Option.none },
         [Eff.enterUpload, Eff.filesInfo (dictGet evd "file_id"), Eff.download u,
          Eff.putObject env.bucket nm content,
          Eff.postMessage (dictGet evd "channel_id") ("❌ Error: " ++ e)])) ∧
    (∀ (env : Env) (evd : List (String × PyVal)),
      countPost (handle_file_upload env evd).snd ≤ 1) := by
  refine ⟨?_, ?_, ?_, ?_, ?_⟩
  · intro env evd kvs fileObj u nm content h1 h2 h3 h4 h5 h6 h7
    unfold handle_file_upload get_file_info
    simp [h1, h2, h3, h4, h5, h6, h7, post_slack_message_eq]
  · intro env evd e h1
    unfold handle_file_upload get_file_info
    simp [h1, post_slack_message_eq]
  · intro env evd kvs fileObj u nm e h1 h2 h3 h4 h5 h6
    unfold handle_file_upload get_file_info
    simp [h1, h2, h3, h4, h5, h6, post_slack_message_eq]
  · intro env evd kvs fileObj u nm content e h1 h2 h3 h4 h5 h6 h7
    unfold handle_file_upload get_file_info
    simp [h1, h2, h3, h4, h5, h6, h7, post_slack_message_eq]
  · intro env evd
    exact Nat.le_of_eq (upload_trace_counts env evd).2

/-- Claim C2: for every fetch request whose `text` argument strips to a
non-empty name, `handle_s3_fetch` makes exactly one presigned-URL
generation call with `ExpiresIn` 3600 and a content disposition containing
the `quote_plus`-escaped filename, posts exactly one chat message
containing the generated URL, and returns status 200.  The statement
quantifies over every environment and never consults the bucket contents,
so in particular it holds when no object with that key exists: the trace
shows the presigned-URL call and the chat post and nothing else — existence
is never checked. -/
theorem fetch_presign_spec :
    ∀ (env : Env) (body : List (String × PyVal)) (t t0 chv ch : PyVal) (fn : String),
      dictGetItem body "text" = some t →
      pyIndex0 t = some t0 →
      pyStripStr t0 = some fn →
      fn.isEmpty = false →
      dictGetItem body "channel_id" = some chv →
      pyIndex0 chv = some ch →
      handle_s3_fetch env body =
        (strRes 200 ("Fetching `" ++ fn ++ "`..."),
         [Eff.enterFetch,
          Eff.presign env.bucket fn ("attachment; filename=\"" ++ quotePlus fn ++ "\"") 3600,
          Eff.postMessage ch
            ("🔗 Here is your download link for `" ++ fn ++ "` (valid for 1 hour):\n" ++
              env.presign env.bucket fn
                ("attachment; filename=\"" ++ quotePlus fn ++ "\"") 3600)]) := by
  intro env body t t0 chv ch fn h1 h2 h3 h4 h5 h6
  unfold handle_s3_fetch fetchTry
  simp [h1, h2, h3, h4, h5, h6, post_slack_message_eq]

/-- Claim C3 (corrected): in the list handler a failure of the
bucket-listing call yields status 500 with the error logged and nothing
posted to the channel; but a failure of the `chat.postMessage` call does
NOT yield 500 — it is caught and logged inside `post_slack_message`, and
`handle_s3_list` still returns status 200 whenever the listing succeeded
(second conjunct: the status is 200 for every `postMessage` oracle). -/
theorem list_error_status_amended :
    (∀ (env : Env) (body : List (String × PyVal)) (chv ch : PyVal) (e : String),
      dictGetItem body "channel_id" = some chv →
      pyIndex0 chv = some ch →
      env.listObjects env.bucket = Except.error e →
      handle_s3_list env body =
        (strRes 500 "Error listing files.",
         [Eff.enterList, Eff.listObjects env.bucket])) ∧
    (∀ (env : Env) (body : List (String × PyVal)) (chv ch : PyVal)
        (r : Option (List S3Object)),
      dictGetItem body "channel_id" = some chv →
      pyIndex0 chv = some ch →
      env.listObjects env.bucket = Except.ok r →
      (handle_s3_list env body).fst.statusCode = 200) := by
  constructor
  · intro env body chv ch e h1 h2 h3
    unfold handle_s3_list
    simp [h1, h2, h3]
  · intro env body chv ch r h1 h2 h3
    unfold handle_s3_list
    rcases r with _ | contents <;> simp [h1, h2, h3, post_slack_message_eq, strRes]

/-- Claim C3, counterexample to the claim as stated: a concrete execution
of the list handler in which the `chat.postMessage` call fails (the
environment returns a `RequestException`), the post call demonstrably
happened (second conjunct shows it in the trace), and the response status
is 200, not the claimed 500. -/
theorem list_post_failure_counterexample :
    envPostFail.postMessage (PyVal.str "C123") "📂 **Files in S3:**\n- a.txt\n- b.txt" =
        Except.error "ConnectionError" ∧
    (handle_s3_list envPostFail listBody).snd =
        [Eff.enterList, Eff.listObjects (some "bkt"),
         Eff.postMessage (PyVal.str "C123") "📂 **Files in S3:**\n- a.txt\n- b.txt"] ∧
    (handle_s3_list envPostFail listBody).fst.statusCode = 200 :=
  ⟨rfl, rfl, rfl⟩

/-- Claim C4: for every fetch request whose key argument is empty or
whitespace-only after stripping, the handler returns status 200 with the
usage-hint body, and the trace holds zero storage-client calls and zero
chat-client calls (the only entry is the handler-entry marker, which is
instrumentation, not an external call). -/
theorem fetch_usage_hint_spec :
    ∀ (env : Env) (body : List (String × PyVal)) (t t0 chv ch : PyVal),
      dictGetItem body "text" = some t →
      pyIndex0 t = some t0 →
      pyStripStr t0 = some "" →
      dictGetItem body "channel_id" = some chv →
      pyIndex0 chv = some ch →
      handle_s3_fetch env body =
        (strRes 200 "Please provide a filename. Usage: `/s3-fetch <filename>`",
         [Eff.enterFetch]) ∧
      (handle_s3_fetch env body).snd.countP isStorageEff = 0 ∧
      (handle_s3_fetch env body).snd.countP isChatEff = 0 := by
  intro env body t t0 chv ch h1 h2 h3 h4 h5
  have he : handle_s3_fetch env body =
      (strRes 200 "Please provide a filename. Usage: `/s3-fetch <filename>`",
       [Eff.enterFetch]) := by
    unfold handle_s3_fetch fetchTry
    simp [h1, h2, h3, h4, h5, show "".isEmpty = true from rfl]
  exact ⟨he, by simp [he, isStorageEff], by simp [he, isChatEff]⟩

/-- Claim C5: for every parsed envelope whose `type` equals
`url_verification` and which carries a `challenge` value, the dispatcher
responds immediately with status 200 and body exactly the `challenge`
value, with an empty trace — no external calls, no side effects. -/
theorem challenge_echo_spec :
    ∀ (env : Env) (kvs : List (String × PyVal)) (c : PyVal),
      pyEqStr (dictGet kvs "type") "url_verification" = true →
      dictGetItem kvs "challenge" = some c →
      dispatch env (PyVal.dict kvs) =
        (Except.ok { statusCode := 200, body := some c }, []) := by
  intro env kvs c h1 h2
  unfold dispatch
  simp [h1, h2]

/-- Claim C6: the dispatcher runs at most one handler on every request
(first conjunct, over the whole `lambda_handler`, counting handler-entry
markers), and a `command` value other than the fetch and list command
names is silently ignored: together with a request matching no other
branch it falls through to the default status-200 acknowledgement with an
empty trace (second conjunct). -/
theorem dispatch_single_handler_spec :
    (∀ (env : Env) (ev : LambdaEvent), countEnter (lambda_handler env ev).snd ≤ 1) ∧
    (∀ (env : Env) (kvs evKvs : List (String × PyVal)) (v : PyVal),
      pyEqStr (dictGet kvs "type") "url_verification" = false →
      hasKey kvs "command" = true →
      pyIndex0 (dictGet kvs "command") = some v →
      pyEqStr v "/s3-fetch" = false →
      pyEqStr v "/s3-list" = false →
      dictGetD kvs "event" (PyVal.dict []) = PyVal.dict evKvs →
      pyEqStr (dictGet evKvs "type") "file_shared" = false →
      dispatch env (PyVal.dict kvs) = (Except.ok defaultAck, [])) := by
  constructor
  · exact lambda_countEnter
  · intro env kvs evKvs v h1 h2 h3 h4 h5 h6 h7
    unfold dispatch dispatchEvent
    simp [h1, h2, h3, h4, h5, h6, h7]

/-- Claim C7: the `try` block of the fetch handler never raises the boto3
`ClientError` class — its only failure modes are the generic ones — so the
`NoSuchKey` branch of `handle_s3_fetch` is unreachable for every
environment and every request body.  This rests on the modelling of
`generate_presigned_url` as a local computation that never raises that
error class, per the spec. -/
theorem fetch_notfound_unreachable :
    ∀ (env : Env) (body : List (String × PyVal)),
      isClientErrExn (fetchTry env body).fst = false := by
  intro env body
  unfold fetchTry
  repeat' split
  all_goals rfl

/-- Claim C8: when the bucket listing reports no entries (no `Contents`
key), the list handler posts exactly the bucket-empty message and builds
no bullet list; when it reports entries, the posted message is the header
followed by every returned key prefixed with `- `, newline-delimited, in
the order returned; the response status is 200 in both cases. -/
theorem list_formatting_spec :
    (∀ (env : Env) (body : List (String × PyVal)) (chv ch : PyVal),
      dictGetItem body "channel_id" = some chv →
      pyIndex0 chv = some ch →
      env.listObjects env.bucket = Except.ok Option.none →
      handle_s3_list env body =
        (strRes 200 "No files found.",
         [Eff.enterList, Eff.listObjects env.bucket,
          Eff.postMessage ch "📂 The S3 bucket is empty."])) ∧
    (∀ (env : Env) (body : List (String × PyVal)) (chv ch : PyVal)
        (contents : List S3Object),
      dictGetItem body "channel_id" = some chv →
      pyIndex0 chv = some ch →
      env.listObjects env.bucket = Except.ok (some contents) →
      handle_s3_list env body =
        (strRes 200 "Files listed.",
         [Eff.enterList, Eff.listObjects env.bucket,
          Eff.postMessage ch
            ("📂 **Files in S3:**\n" ++
              String.intercalate "\n" ((contents.map S3Object.key).map
                (fun f => "- " ++ f)))])) := by
  constructor
  · intro env body chv ch h1 h2 h3
    unfold handle_s3_list
    simp [h1, h2, h3, post_slack_message_eq]
  · intro env body chv ch contents h1 h2 h3
    unfold handle_s3_list
    simp [h1, h2, h3, post_slack_message_eq]

/-- Claim C9: when the transport base64 flag is set, the body is decoded
(base64, then UTF-8) before any parsing, and a decoding failure yields
status 400 with an empty trace — no side effects, no external calls
(first conjunct); a successful decode proceeds to parse and dispatch the
decoded text (second conjunct). -/
theorem base64_decode_spec :
    (∀ (env : Env) (ev : LambdaEvent),
      ev.isBase64Encoded = true →
      decodeBody ev.body = Option.none →
      lambda_handler env ev = (Except.ok (strRes 400 "Bad request body."), [])) ∧
    (∀ (env : Env) (ev : LambdaEvent) (raw : String),
      ev.isBase64Encoded = true →
      decodeBody ev.body = some raw →
      lambda_handler env ev = parseAndDispatch env raw) := by
  constructor
  · intro env ev h1 h2
    unfold lambda_handler
    simp [h1, h2]
  · intro env ev raw h1 h2
    unfold lambda_handler
    simp [h1, h2]

/-- Claim C10: indexing a string at zero yields only its first character
(first conjunct), so an envelope whose `command` value is a plain string —
the shape `json.loads` delivers — never dispatches to a handler even when
that string is exactly `/s3-fetch` or `/s3-list`, and instead receives the
default acknowledgement (second conjunct); only the form-parsed shape,
where the value is a list of strings, dispatches to the corresponding
handler (third conjunct). -/
theorem command_index_dispatch_spec :
    (∀ (c : Char) (cs : List Char),
      pyIndex0 (PyVal.str (String.mk (c :: cs))) = some (PyVal.str (String.mk [c]))) ∧
    (∀ (env : Env) (kvs evKvs : List (String × PyVal)) (s : String),
      pyEqStr (dictGet kvs "type") "url_verification" = false →
      hasKey kvs "command" = true →
      dictGet kvs "command" = PyVal.str s →
      (s = "/s3-fetch" ∨ s = "/s3-list") →
      dictGetD kvs "event" (PyVal.dict []) = PyVal.dict evKvs →
      pyEqStr (dictGet evKvs "type") "file_shared" = false →
      dispatch env (PyVal.dict kvs) = (Except.ok defaultAck, [])) ∧
    (∀ (env : Env) (kvs : List (String × PyVal)) (s : String) (rest : List PyVal),
      pyEqStr (dictGet kvs "type") "url_verification" = false →
      hasKey kvs "command" = true →
      dictGet kvs "command" = PyVal.list (PyVal.str s :: rest) →
      (s = "/s3-fetch" →
        dispatch env (PyVal.dict kvs) =
          (Except.ok (handle_s3_fetch env kvs).fst, (handle_s3_fetch env kvs).snd)) ∧
      (s = "/s3-list" →
        dispatch env (PyVal.dict kvs) =
          (Except.ok (handle_s3_list env kvs).fst, (handle_s3_list env kvs).snd))) := by
  refine ⟨?_, ?_, ?_⟩
  · intro c cs
    rfl
  · intro env kvs evKvs s h1 h2 h3 hs h4 h5
    rcases hs with hs | hs <;> subst hs <;>
      unfold dispatch dispatchEvent <;>
      simp [h1, h2, h3, h4, h5,
        show pyIndex0 (PyVal.str "/s3-fetch") = some (PyVal.str "/") from rfl,
        show pyIndex0 (PyVal.str "/s3-list") = some (PyVal.str "/") from rfl,
        show pyEqStr (PyVal.str "/") "/s3-fetch" = false from rfl,
        show pyEqStr (PyVal.str "/") "/s3-list" = false from rfl]
  · intro env kvs s rest h1 h2 h3
    constructor
    · intro hs
      subst hs
      unfold dispatch
      rcases hf : handle_s3_fetch env kvs with ⟨r, tr⟩
      simp [h1, h2, h3, hf,
        show ∀ x : PyVal, ∀ xs : List PyVal, pyIndex0 (PyVal.list (x :: xs)) = some x
          from fun _ _ => rfl,
        show pyEqStr (PyVal.str "/s3-fetch") "/s3-fetch" = true from rfl]
    · intro hs
      subst hs
      unfold dispatch
      rcases hl : handle_s3_list env kvs with ⟨r, tr⟩
      simp [h1, h2, h3, hl,
        show ∀ x : PyVal, ∀ xs : List PyVal, pyIndex0 (PyVal.list (x :: xs)) = some x
          from fun _ _ => rfl,
        show pyEqStr (PyVal.str "/s3-list") "/s3-list" = true from rfl,
        show pyEqStr (PyVal.str "/s3-list") "/s3-fetch" = false from rfl]

/-! ### Witnesses -/

/-- Witness for C1: the success conjunct evaluated at a concrete
environment and event payload. -/
theorem upload_messaging_spec_witness :
    testEnv.filesInfo (dictGet uploadEvd "file_id") =
        Except.ok (PyVal.dict
          [("ok", PyVal.bool true),
           ("file", PyVal.dict
             [("url_private_download", PyVal.str "https://files.example/p"),
              ("name", PyVal.str "report.csv")])]) ∧
    handle_file_upload testEnv uploadEvd =
      ({ statusCode := 200, body := Option.none },
       [Eff.enterUpload, Eff.filesInfo (PyVal.str "F42"),
        Eff.download (PyVal.str "https://files.example/p"),
        Eff.putObject (some "bkt") (PyVal.str "report.csv") [104, 105],
        Eff.postMessage (PyVal.str "C123") "✅ File `report.csv` uploaded to S3."]) :=
  ⟨rfl, upload_messaging_spec.1 testEnv uploadEvd _ _ _ _ _ rfl rfl rfl rfl rfl rfl rfl⟩

/-- Witness for C2: a concrete `/s3-fetch report.csv` request. -/
theorem fetch_presign_spec_witness :
    dictGetItem fetchBody "text" = some (PyVal.list [PyVal.str " report.csv "]) ∧
    handle_s3_fetch testEnv fetchBody =
      (strRes 200 "Fetching `report.csv`...",
       [Eff.enterFetch,
        Eff.presign (some "bkt") "report.csv" "attachment; filename=\"report.csv\"" 3600,
        Eff.postMessage (PyVal.str "C123")
          "🔗 Here is your download link for `report.csv` (valid for 1 hour):\nhttps://signed.example/u"]) :=
  ⟨rfl, fetch_presign_spec testEnv fetchBody _ _ _ _ "report.csv" rfl rfl rfl rfl rfl rfl⟩

/-- Witness for C3 (amended): a concrete listing failure. -/
theorem list_error_status_amended_witness :
    envListFail.listObjects envListFail.bucket = Except.error "AccessDenied" ∧
    handle_s3_list envListFail listBody =
      (strRes 500 "Error listing files.",
       [Eff.enterList, Eff.listObjects (some "bkt")]) :=
  ⟨rfl, list_error_status_amended.1 envListFail listBody _ _ "AccessDenied" rfl rfl rfl⟩

/-- Witness for C4: a concrete ASCII-whitespace-only `/s3-fetch`, and a
`/s3-fetch` whose key is a single no-break space (U+00A0), the Unicode
whitespace that `str.strip()` also removes. -/
theorem fetch_usage_hint_spec_witness :
    dictGetItem fetchBodyBlank "text" = some (PyVal.list [PyVal.str "   "]) ∧
    (handle_s3_fetch testEnv fetchBodyBlank =
        (strRes 200 "Please provide a filename. Usage: `/s3-fetch <filename>`",
         [Eff.enterFetch]) ∧
      (handle_s3_fetch testEnv fetchBodyBlank).snd.countP isStorageEff = 0 ∧
      (handle_s3_fetch testEnv fetchBodyBlank).snd.countP isChatEff = 0) ∧
    handle_s3_fetch testEnv nbspBody =
      (strRes 200 "Please provide a filename. Usage: `/s3-fetch <filename>`",
       [Eff.enterFetch]) :=
  ⟨rfl, fetch_usage_hint_spec testEnv fetchBodyBlank _ _ _ _ rfl rfl rfl rfl rfl,
    (fetch_usage_hint_spec testEnv nbspBody _ _ _ _ rfl rfl rfl rfl rfl).1⟩

/-- Witness for C5: the spec example `abc123` challenge. -/
theorem challenge_echo_spec_witness :
    pyEqStr (dictGet challengeBody "type") "url_verification" = true ∧
    dispatch testEnv (PyVal.dict challengeBody) =
      (Except.ok { statusCode := 200, body := some (PyVal.str "abc123") }, []) :=
  ⟨rfl, challenge_echo_spec testEnv challengeBody _ rfl rfl⟩

/-- Witness for C6: a concrete unknown command `/s3-delete`. -/
theorem dispatch_single_handler_spec_witness :
    pyIndex0 (dictGet otherCmdBody "command") = some (PyVal.str "/s3-delete") ∧
    dispatch testEnv (PyVal.dict otherCmdBody) = (Except.ok defaultAck, []) :=
  ⟨rfl, dispatch_single_handler_spec.2 testEnv otherCmdBody [] _ rfl rfl rfl rfl rfl rfl rfl⟩

/-- Witness for C8: the spec example listing `a.txt`, `b.txt`. -/
theorem list_formatting_spec_witness :
    testEnv.listObjects testEnv.bucket =
        Except.ok (some [{ key := "a.txt" }, { key := "b.txt" }]) ∧
    handle_s3_list testEnv listBody =
      (strRes 200 "Files listed.",
       [Eff.enterList, Eff.listObjects (some "bkt"),
        Eff.postMessage (PyVal.str "C123") "📂 **Files in S3:**\n- a.txt\n- b.txt"]) :=
  ⟨rfl, list_formatting_spec.2 testEnv listBody _ _ _ rfl rfl rfl⟩

/-- Witness for C9: the one-character body `A` is not decodable base64 and
yields 400; the body `QQ==QUJD` decodes leniently to `A` (data after the
padding quantum is ignored) and is parsed and dispatched, not rejected. -/
theorem base64_decode_spec_witness :
    badB64Event.isBase64Encoded = true ∧
    decodeBody badB64Event.body = Option.none ∧
    lambda_handler testEnv badB64Event = (Except.ok (strRes 400 "Bad request body."), []) ∧
    decodeBody padStopB64Event.body = some "A" ∧
    lambda_handler testEnv padStopB64Event = parseAndDispatch testEnv "A" :=
  ⟨rfl, rfl, base64_decode_spec.1 testEnv badB64Event rfl rfl, rfl,
    base64_decode_spec.2 testEnv padStopB64Event "A" rfl rfl⟩

/-- Witness for C10: a JSON-shaped `command` equal to `/s3-fetch` receives
the default acknowledgement. -/
theorem command_index_dispatch_spec_witness :
    dictGet jsonCmdBody "command" = PyVal.str "/s3-fetch" ∧
    dispatch testEnv (PyVal.dict jsonCmdBody) = (Except.ok defaultAck, []) :=
  ⟨rfl, command_index_dispatch_spec.2.1 testEnv jsonCmdBody [] "/s3-fetch" rfl rfl rfl
    (Or.inl rfl) rfl rfl⟩

end SlackS3
